import Mathlib

/-!
Verification development for the sandboxed web terminal emulator
(`render_deploy.py`, class `TerminalEmulator`).

The Python code is shallowly embedded: strings are Lean `String`s, the
POSIX filesystem the process talks to is modelled as a flat finite map
from normalized absolute path strings to nodes, and each method of
`TerminalEmulator` becomes a pure Lean function threading that filesystem
and the mutable session fields (`current_directory`, `command_history`)
explicitly.  Python string primitives (`strip`, `split`, `lower`,
`startswith`, slicing) are modelled on ASCII data, which covers every
string the development evaluates.
-/

namespace Term2

/-- Whitespace set of Python `str.strip()` / `str.split()` (ASCII part). -/
def isSpaceChar (c : Char) : Bool :=
  c = ' ' || c = '\t' || c = '\n' || c = '\r' || c = '\x0b' || c = '\x0c'

/-- Python `s.startswith(pre)`. -/
def pyStartswith (s pre : String) : Bool :=
  pre.data.isPrefixOf s.data

/-- Python `s.endswith(suf)`. -/
def pyEndswith (s suf : String) : Bool :=
  suf.data.reverse.isPrefixOf s.data.reverse

/-- Python `s.strip()` (ASCII whitespace). -/
def pyStrip (s : String) : String :=
  String.mk (((s.data.dropWhile isSpaceChar).reverse.dropWhile isSpaceChar).reverse)

/-- Helper for `pySplit`: accumulates the current token (reversed). -/
def pySplitAux : List Char → List Char → List String
  | [], acc => if acc = [] then [] else [String.mk acc.reverse]
  | c :: cs, acc =>
    if isSpaceChar c then
      if acc = [] then pySplitAux cs []
      else String.mk acc.reverse :: pySplitAux cs []
    else pySplitAux cs (c :: acc)

/-- Python `s.split()`: split on whitespace runs, no empty tokens. -/
def pySplit (s : String) : List String :=
  pySplitAux s.data []

/-- Python `s.lower()` (ASCII letters; every string this development
evaluates is ASCII). -/
def pyLower (s : String) : String :=
  String.mk (s.data.map Char.toLower)

/-- Python slicing `s[n:]` (by characters). -/
def strDrop (n : Nat) (s : String) : String :=
  String.mk (s.data.drop n)

/-- Python `sub in s` (substring test). -/
def listContains (sub : List Char) : List Char → Bool
  | [] => sub.isPrefixOf []
  | c :: rest => sub.isPrefixOf (c :: rest) || listContains sub rest

/-- Python `sub in s` on strings. -/
def pyContains (s sub : String) : Bool :=
  listContains sub.data s.data

/-- Python format `"{x:>w}"`: right-align in `w` columns with spaces. -/
def pyRightAlign (w : Nat) (s : String) : String :=
  if s.length < w then String.mk (List.replicate (w - s.length) ' ') ++ s else s

/-- Python `s.ljust(w)`. -/
def pyLjust (w : Nat) (s : String) : String :=
  if s.length < w then s ++ String.mk (List.replicate (w - s.length) ' ') else s

/-- Python lexicographic `<` on strings (by code point). -/
def pyStrLtAux : List Char → List Char → Bool
  | [], [] => false
  | [], _ :: _ => true
  | _ :: _, [] => false
  | a :: as, b :: bs =>
    if a.val < b.val then true
    else if b.val < a.val then false
    else pyStrLtAux as bs

/-- Python `a < b` on strings. -/
def pyStrLt (a b : String) : Bool := pyStrLtAux a.data b.data

/-- Stable insertion used by `pySort` (Python `sorted` is a stable
ascending sort). -/
def pySortInsert (a : String) : List String → List String
  | [] => [a]
  | x :: xs => if pyStrLt a x then a :: x :: xs else x :: pySortInsert a xs

/-- Python `sorted(...)` / `list.sort()` on strings. -/
def pySort : List String → List String
  | [] => []
  | x :: xs => pySortInsert x (pySort xs)

/-- Python `hist[-n:]` (last `n` entries). -/
def pyLastN (n : Nat) (l : List String) : List String :=
  l.drop (l.length - n)

/-- Helper for `splitSlash`: accumulates the current component
(reversed).  Mirrors Python `s.split('/')`, which keeps empty pieces. -/
def splitSlashAux : List Char → List Char → List String
  | [], acc => [String.mk acc.reverse]
  | c :: cs, acc =>
    if c = '/' then String.mk acc.reverse :: splitSlashAux cs []
    else splitSlashAux cs (c :: acc)

/-- Python `s.split('/')`. -/
def splitSlash (s : String) : List String :=
  splitSlashAux s.data []

/-! ### POSIX path primitives (`os.path`) -/

/-- `os.path.normpath` (POSIX): collapse `.`/`..`/redundant separators,
purely lexically.  Preserves the special two-leading-slash case exactly
as CPython does. -/
def normpath (p : String) : String :=
  if p = "" then "." else
  let slashes : Nat :=
    if pyStartswith p "//" && ! pyStartswith p "///" then 2
    else if pyStartswith p "/" then 1 else 0
  let comps := splitSlash p
  let newComps := comps.foldl (fun acc comp =>
    if comp = "" || comp = "." then acc
    else if comp ≠ ".." || (slashes = 0 && acc = []) ||
            (acc ≠ [] && acc.getLast? = some "..") then acc ++ [comp]
    else if acc ≠ [] then acc.dropLast
    else acc) []
  let out := String.mk (List.replicate slashes '/') ++ String.intercalate "/" newComps
  if out = "" then "." else out

/-- `os.path.join` (POSIX, two arguments). -/
def joinPath (a b : String) : String :=
  if pyStartswith b "/" then b
  else if a = "" || pyEndswith a "/" then a ++ b
  else a ++ "/" ++ b

/-- `os.path.basename` (POSIX): the part after the final separator. -/
def basename (p : String) : String :=
  ((splitSlash p).getLast?).getD ""

/-- `os.path.dirname` (POSIX). -/
def dirname (p : String) : String :=
  let comps := splitSlash p
  match comps with
  | [] => ""
  | [_] => ""
  | _ =>
    let head := String.intercalate "/" comps.dropLast ++ "/"
    if head.data.all (· = '/') then head
    else String.mk ((head.data.reverse.dropWhile (· = '/')).reverse)

/-- `os.path.relpath p start` (POSIX), for already-normalized absolute
arguments: strip the common component prefix, go up for what is left of
`start`, then down into `p`. -/
def relpath (p start : String) : String :=
  let pc := (splitSlash p).filter (· ≠ "")
  let sc := (splitSlash start).filter (· ≠ "")
  let rec common : List String → List String → Nat
    | a :: as, b :: bs => if a = b then common as bs + 1 else 0
    | _, _ => 0
  let n := common pc sc
  let parts := List.replicate (sc.length - n) ".." ++ pc.drop n
  if parts = [] then "." else String.intercalate "/" parts

/-! ### The path resolver (`TerminalEmulator._safe_path`) -/

/-- `self.base_directory`, hard-coded in `TerminalEmulator.__init__`. -/
def baseDir : String := "/tmp/terminal_workspace"

/-- `p` is equal to `root` or a true descendant of it (the confinement
property the specification asserts; this is the spec's notion, not the
code's `startswith` test). -/
def isWithin (root p : String) : Bool :=
  p = root || pyStartswith p (root ++ "/")

/-- `TerminalEmulator._safe_path`.  `cwd` is `self.current_directory`;
in every reachable state `cwd` is an absolute path, so
`os.path.abspath(os.path.join(cwd, p))` is `normpath (joinPath cwd p)`. -/
def safePath (cwd p : String) : String :=
  if p = "" then cwd
  else if pyStartswith p "/" then
    let ap := normpath p
    if ! pyStartswith ap baseDir then joinPath baseDir (basename p)
    else ap
  else
    let ap := normpath (joinPath cwd p)
    if ! pyStartswith ap baseDir then baseDir
    else ap

/-! ### The filesystem model

The POSIX filesystem underneath `os` / `shutil` / `pathlib` is modelled
as a flat association list from normalized absolute path strings to
nodes.  Every path handed to an OS call by the terminal goes through
`_safe_path` first, so the keys the code produces are `normpath`
outputs.  The model filesystem has no permissions, so the
`PermissionError` branches of the source are unreachable here. -/

/-- `os.stat` data observable through the terminal: `st_size`, and
`st_mtime` already rendered through `strftime('%b %d %H:%M')` (the only
way the code ever shows it). -/
structure Meta where
  size : Nat
  mtime : String
deriving DecidableEq

/-- A filesystem node: a regular file with its text content, or a
directory. -/
inductive Node where
  | file (content : String) (meta : Meta)
  | dir (meta : Meta)
deriving DecidableEq

/-- The filesystem: an association list keyed by normalized absolute
paths, in creation order (the order `os.listdir` reports). -/
structure FS where
  entries : List (String × Node)
deriving DecidableEq

/-- `os.path.exists`. -/
def osExists (fs : FS) (p : String) : Bool :=
  fs.entries.any (fun e => e.1 = p)

/-- `os.path.isdir`. -/
def osIsdir (fs : FS) (p : String) : Bool :=
  fs.entries.any (fun e => e.1 = p && (match e.2 with | .dir _ => true | _ => false))

/-- `os.path.isfile`. -/
def osIsfile (fs : FS) (p : String) : Bool :=
  fs.entries.any (fun e => e.1 = p && (match e.2 with | .file _ _ => true | _ => false))

/-- First node stored at `p`, if any. -/
def fsGet (fs : FS) (p : String) : Option Node :=
  (fs.entries.find? (fun e => e.1 = p)).map (·.2)

/-- Store node `n` at `p` (replacing any previous node; a fresh path is
appended at the end, matching creation order). -/
def fsSet (fs : FS) (p : String) (n : Node) : FS :=
  ⟨fs.entries.filter (fun e => e.1 ≠ p) ++ [(p, n)]⟩

/-- Remove the single entry at `p`. -/
def fsRemove (fs : FS) (p : String) : FS :=
  ⟨fs.entries.filter (fun e => e.1 ≠ p)⟩

/-- Remove `p` and everything below it. -/
def fsRemoveTree (fs : FS) (p : String) : FS :=
  ⟨fs.entries.filter (fun e => e.1 ≠ p && ! pyStartswith e.1 (p ++ "/"))⟩

/-- `os.listdir p`: names of the immediate children of `p`, in the
order the filesystem stores them. -/
def osListdir (fs : FS) (p : String) : List String :=
  fs.entries.filterMap (fun e =>
    if pyStartswith e.1 (p ++ "/") then
      let rest := strDrop (p.length + 1) e.1
      if rest ≠ "" && ! pyContains rest "/" then some rest else none
    else none)

/-! ### OS errors

The `OSError` subclasses the terminal catches, together with the
filename they carry; `OsErr.str` models CPython's `str(e)` rendering
`[Errno N] message: 'filename'`. -/

/-- An `OSError` raised by an OS primitive. -/
inductive OsErr where
  | fileExists (p : String)
  | noSuchFile (p : String)
  | notADir (p : String)
  | isADir (p : String)
  | notEmpty (p : String)
  /-- `shutil.Error` from `shutil.move` onto an existing destination. -/
  | destExists (p : String)
deriving DecidableEq

/-- CPython's `str(e)` for these errors. -/
def OsErr.str : OsErr → String
  | .fileExists p => "[Errno 17] File exists: '" ++ p ++ "'"
  | .noSuchFile p => "[Errno 2] No such file or directory: '" ++ p ++ "'"
  | .notADir p => "[Errno 20] Not a directory: '" ++ p ++ "'"
  | .isADir p => "[Errno 21] Is a directory: '" ++ p ++ "'"
  | .notEmpty p => "[Errno 39] Directory not empty: '" ++ p ++ "'"
  | .destExists p => "Destination path '" ++ p ++ "' already exists"

/-! ### Environment

Values the code reads from the platform (`platform.*`,
`datetime.now()`, the size/mtime the OS stamps onto nodes it creates).
They are opaque inputs of the model. -/

/-- Platform/clock inputs of the terminal. -/
structure Env where
  platSystem : String
  platRelease : String
  platArch : String
  pyVersion : String
  bootTime : String
  /-- `strftime('%b %d %H:%M')` of the current time, stamped on created
  or touched nodes. -/
  now : String
  /-- `st_size` the OS reports for a directory. -/
  dirSize : Nat
deriving DecidableEq

/-- Metadata of a node the OS creates right now. -/
def newDirMeta (env : Env) : Meta := ⟨env.dirSize, env.now⟩

/-- Metadata of an empty file the OS creates right now. -/
def newFileMeta (env : Env) : Meta := ⟨0, env.now⟩

/-! ### OS mutation primitives -/

/-- `os.mkdir p`. -/
def osMkdir (env : Env) (fs : FS) (p : String) : Except OsErr FS :=
  if osExists fs p then .error (.fileExists p)
  else if ! osExists fs (dirname p) then .error (.noSuchFile p)
  else if ! osIsdir fs (dirname p) then .error (.notADir p)
  else .ok (fsSet fs p (.dir (newDirMeta env)))

/-- The chain of ancestor paths `makedirs` creates, outermost first:
for `/a/b/c` this is `[/a, /a/b, /a/b/c]`. -/
def ancestorsFrom (acc : String) : List String → List String
  | [] => []
  | c :: rest =>
    let acc' := if acc = "" then c else if acc = "/" then "/" ++ c else acc ++ "/" ++ c
    acc' :: ancestorsFrom acc' rest

/-- Ancestor chain of a path (components split on `/`). -/
def ancestorPaths (p : String) : List String :=
  if pyStartswith p "/" then ancestorsFrom "/" ((splitSlash p).filter (· ≠ ""))
  else ancestorsFrom "" ((splitSlash p).filter (· ≠ ""))

/-- Loop of `os.makedirs(p, exist_ok=True)`: ensure each ancestor in
turn; an ancestor that exists as a file makes the next `mkdir` raise
`NotADirectoryError`; the final component raises `FileExistsError`
only when it exists and is not a directory. -/
def makedirsLoop (env : Env) : FS → List String → Except OsErr FS
  | fs, [] => .ok fs
  | fs, [last] =>
    if osIsdir fs last then .ok fs
    else if osExists fs last then .error (.fileExists last)
    else if osExists fs (dirname last) && ! osIsdir fs (dirname last) then
      .error (.notADir last)
    else .ok (fsSet fs last (.dir (newDirMeta env)))
  | fs, a :: rest =>
    if osIsdir fs a then makedirsLoop env fs rest
    else if osExists fs a then .error (.notADir (rest.headD a))
    else makedirsLoop env (fsSet fs a (.dir (newDirMeta env))) rest

/-- `os.makedirs(p, exist_ok=True)`. -/
def osMakedirs (env : Env) (fs : FS) (p : String) : Except OsErr FS :=
  makedirsLoop env fs (ancestorPaths p)

/-- `os.remove p` (only reached on non-directory paths in the source). -/
def osRemove (fs : FS) (p : String) : Except OsErr FS :=
  if ! osExists fs p then .error (.noSuchFile p)
  else if osIsdir fs p then .error (.isADir p)
  else .ok (fsRemove fs p)

/-- `os.rmdir p`. -/
def osRmdir (fs : FS) (p : String) : Except OsErr FS :=
  if ! osExists fs p then .error (.noSuchFile p)
  else if ! osIsdir fs p then .error (.notADir p)
  else if osListdir fs p ≠ [] then .error (.notEmpty p)
  else .ok (fsRemove fs p)

/-- `shutil.rmtree p` (only reached on directories in the source). -/
def shutilRmtree (fs : FS) (p : String) : Except OsErr FS :=
  if ! osIsdir fs p then .error (.noSuchFile p)
  else .ok (fsRemoveTree fs p)

/-- Remap the subtree rooted at `src` onto `dst` (used by `copytree`
and `move`). -/
def fsCopyTreeEntries (fs : FS) (src dst : String) : List (String × Node) :=
  fs.entries.filterMap (fun e =>
    if e.1 = src then some (dst, e.2)
    else if pyStartswith e.1 (src ++ "/") then
      some (dst ++ strDrop src.length e.1, e.2)
    else none)

/-- `shutil.copy2 src dst`: copy a regular file, nesting under `dst`
when `dst` is a directory, preserving metadata. -/
def shutilCopy2 (fs : FS) (src dst : String) : Except OsErr FS :=
  let dst' := if osIsdir fs dst then joinPath dst (basename src) else dst
  match fsGet fs src with
  | none => .error (.noSuchFile src)
  | some (.dir _) => .error (.isADir src)
  | some (.file content meta) =>
    if osIsdir fs dst' then .error (.isADir dst')
    else if ! osIsdir fs (dirname dst') then .error (.noSuchFile dst')
    else .ok (fsSet fs dst' (.file content meta))

/-- `shutil.copytree src dst` (only reached on directory sources). -/
def shutilCopytree (fs : FS) (src dst : String) : Except OsErr FS :=
  if osExists fs dst then .error (.fileExists dst)
  else if ! osIsdir fs src then .error (.noSuchFile src)
  else if ! osIsdir fs (dirname dst) then .error (.noSuchFile dst)
  else .ok ⟨fs.entries ++ fsCopyTreeEntries fs src dst⟩

/-- `shutil.move src dst`: rename, nesting under `dst` when `dst` is a
directory and refusing an existing nested destination. -/
def shutilMove (fs : FS) (src dst : String) : Except OsErr FS :=
  let real := if osIsdir fs dst then joinPath dst (basename src) else dst
  if osIsdir fs dst && osExists fs real then
    .error (.destExists real)
  else if ! osExists fs src then .error (.noSuchFile src)
  else if ! osIsdir fs (dirname real) then .error (.noSuchFile real)
  else
    let copied := fsCopyTreeEntries fs src real
    .ok ⟨(fsRemoveTree (fsRemove fs real) src).entries ++ copied⟩

/-- `pathlib.Path(p).touch()`. -/
def pathTouch (env : Env) (fs : FS) (p : String) : Except OsErr FS :=
  match fsGet fs p with
  | some (.file content meta) => .ok (fsSet fs p (.file content ⟨meta.size, env.now⟩))
  | some (.dir meta) => .ok (fsSet fs p (.dir ⟨meta.size, env.now⟩))
  | none =>
    if osIsdir fs (dirname p) then .ok (fsSet fs p (.file "" (newFileMeta env)))
    else .error (.noSuchFile p)

/-- Exception class raised by `open(p)` in `_cat` (the code catches the
class, not the message). -/
inductive ReadErr where
  | notFound
  | isADir
deriving DecidableEq

/-- `open(p).read()` with `errors='replace'` (the model stores decoded
text, so no replacement ever happens). -/
def osReadFile (fs : FS) (p : String) : Except ReadErr String :=
  match fsGet fs p with
  | none => .error .notFound
  | some (.dir _) => .error .isADir
  | some (.file content _) => .ok content

/-! ### Session state and results -/

/-- The result dictionary every command returns:
`{"output": ..., "error": ..., "success": ...}`. -/
structure CommandResult where
  output : String
  error : String
  success : Bool
deriving DecidableEq

/-- The mutable per-session fields of `TerminalEmulator`
(`base_directory` is the constant `baseDir`; `aliases` is the constant
table below). -/
structure TermState where
  current_directory : String
  command_history : List String
deriving DecidableEq

/-- The state `__init__` leaves behind. -/
def initState : TermState := ⟨baseDir, []⟩

/-- `self.aliases`, in dict insertion order. -/
def aliasTable : List (String × String) :=
  [("ll", "ls -la"), ("la", "ls -a"), ("clear", "clear")]

/-! ### Built-in command handlers -/

/-- `TerminalEmulator._pwd`. -/
def tPwd (cwd : String) : CommandResult :=
  let rel := relpath cwd baseDir
  if rel = "." then ⟨"/workspace", "", true⟩
  else ⟨"/workspace/" ++ rel, "", true⟩

/-- One long-format row of `_ls` for a child `item` of `target`. -/
def lsLongRow (fs : FS) (target item : String) : String :=
  let p := joinPath target item
  let meta := match fsGet fs p with
    | some (.file _ m) => m
    | some (.dir m) => m
    | none => ⟨0, ""⟩
  let perms := if osIsdir fs p then "drwxr-xr-x" else "-rw-r--r--"
  perms ++ " 1 user user " ++ pyRightAlign 8 (toString meta.size) ++ " " ++
    meta.mtime ++ " " ++ item

/-- Rows of `items[i:i+cols]` produced by the short-format packing loop
of `_ls`; the fuel (one unit per row, `l.length` is always enough since
every row takes at least one item) keeps the recursion structural. -/
def chunkRowsAux (cols : Nat) : Nat → List String → List (List String)
  | 0, _ => []
  | _, [] => []
  | fuel + 1, x :: xs =>
    (x :: xs.take (cols - 1)) :: chunkRowsAux cols fuel (xs.drop (cols - 1))

/-- `items` cut into rows of `cols`. -/
def chunkRows (cols : Nat) (l : List String) : List (List String) :=
  chunkRowsAux cols l.length l

/-- `TerminalEmulator._ls`.  The model filesystem has no permission
failures, so the `PermissionError` / unreadable-row branches of the
source are unreachable.  When no argument selects a target and the
current directory is gone, the source's `f"ls: {arg}: ..."` raises
`NameError` (if `args` is empty) or reuses the loop variable left over
from the flag scan (the last element of `args`); the outer handler turns
the `NameError` into `ls: <str(e)>`. -/
def tLs (fs : FS) (cwd : String) (args : List String) : CommandResult :=
  let show_hidden := args.contains "-a" || args.contains "-la" || args.contains "-al"
  let long_format := args.contains "-l" || args.contains "-la" || args.contains "-al"
  let firstTarget := args.find? (fun a => ! pyStartswith a "-")
  let target_dir := match firstTarget with
    | some a => safePath cwd a
    | none => cwd
  if ! osExists fs target_dir then
    match firstTarget with
    | some a => ⟨"", "ls: " ++ a ++ ": No such file or directory", false⟩
    | none =>
      match args.getLast? with
      | some a => ⟨"", "ls: " ++ a ++ ": No such file or directory", false⟩
      | none => ⟨"", "ls: name 'arg' is not defined", false⟩
  else if osIsfile fs target_dir then
    if long_format then
      let meta := match fsGet fs target_dir with
        | some (.file _ m) => m
        | _ => ⟨0, ""⟩
      ⟨"-rw-r--r-- 1 user user " ++ pyRightAlign 8 (toString meta.size) ++ " " ++
        meta.mtime ++ " " ++ basename target_dir, "", true⟩
    else ⟨basename target_dir, "", true⟩
  else
    let items := (osListdir fs target_dir).filterMap (fun item =>
      if ! show_hidden && pyStartswith item "." then none
      else if long_format then some (lsLongRow fs target_dir item)
      else some (item ++ (if osIsdir fs (joinPath target_dir item) then "/" else "")))
    if long_format then ⟨String.intercalate "\n" (pySort items), "", true⟩
    else if items = [] then ⟨"", "", true⟩
    else
      let its := pySort items
      let max_len := (its.map String.length).foldl max 0
      let cols := max 1 (80 / (max_len + 2))
      let rows := (chunkRows cols its).map (fun row =>
        String.intercalate "  " (row.map (pyLjust max_len)))
      ⟨String.intercalate "\n" rows, "", true⟩

/-- `TerminalEmulator._cd`. -/
def tCd (fs : FS) (st : TermState) (args : List String) : CommandResult × TermState :=
  match args with
  | [] => (⟨"", "", true⟩, { st with current_directory := baseDir })
  | target :: _ =>
    let new_path := safePath st.current_directory target
    if ! osExists fs new_path then
      (⟨"", "cd: " ++ target ++ ": No such file or directory", false⟩, st)
    else if ! osIsdir fs new_path then
      (⟨"", "cd: " ++ target ++ ": Not a directory", false⟩, st)
    else (⟨"", "", true⟩, { st with current_directory := new_path })

/-- Per-target loop of `_mkdir`: collected error messages and the final
filesystem. -/
def mkdirLoop (env : Env) (cwd : String) (recursive : Bool) :
    FS → List String → List String × FS
  | fs, [] => ([], fs)
  | fs, d :: ds =>
    let p := safePath cwd d
    match (if recursive then osMakedirs env fs p else osMkdir env fs p) with
    | .ok fs' => mkdirLoop env cwd recursive fs' ds
    | .error (.fileExists _) =>
      let (es, fs') := mkdirLoop env cwd recursive fs ds
      (("mkdir: " ++ d ++ ": File exists") :: es, fs')
    | .error e =>
      let (es, fs') := mkdirLoop env cwd recursive fs ds
      (("mkdir: " ++ d ++ ": " ++ e.str) :: es, fs')

/-- `TerminalEmulator._mkdir`. -/
def tMkdir (env : Env) (fs : FS) (cwd : String) (args : List String) :
    CommandResult × FS :=
  if args = [] then (⟨"", "mkdir: missing operand", false⟩, fs)
  else
    let recursive := args.contains "-p"
    let dirs := args.filter (fun a => ! pyStartswith a "-")
    if dirs = [] then (⟨"", "mkdir: missing operand", false⟩, fs)
    else
      let r := mkdirLoop env cwd recursive fs dirs
      if r.1 = [] then (⟨"", "", true⟩, r.2)
      else (⟨"", String.intercalate "\n" r.1, false⟩, r.2)

/-- Per-target loop of `_rm`. -/
def rmLoop (cwd : String) (recursive force : Bool) :
    FS → List String → List String × FS
  | fs, [] => ([], fs)
  | fs, f :: rest =>
    let p := safePath cwd f
    if osIsdir fs p then
      if recursive then
        match shutilRmtree fs p with
        | .ok fs' => rmLoop cwd recursive force fs' rest
        | .error (.noSuchFile _) =>
          let (es, fs') := rmLoop cwd recursive force fs rest
          (if force then (es, fs')
           else (("rm: " ++ f ++ ": No such file or directory") :: es, fs'))
        | .error e =>
          let (es, fs') := rmLoop cwd recursive force fs rest
          (("rm: " ++ f ++ ": " ++ e.str) :: es, fs')
      else
        let (es, fs') := rmLoop cwd recursive force fs rest
        (("rm: " ++ f ++ ": is a directory") :: es, fs')
    else
      match osRemove fs p with
      | .ok fs' => rmLoop cwd recursive force fs' rest
      | .error (.noSuchFile _) =>
        let (es, fs') := rmLoop cwd recursive force fs rest
        (if force then (es, fs')
         else (("rm: " ++ f ++ ": No such file or directory") :: es, fs'))
      | .error e =>
        let (es, fs') := rmLoop cwd recursive force fs rest
        (("rm: " ++ f ++ ": " ++ e.str) :: es, fs')

/-- `TerminalEmulator._rm`. -/
def tRm (fs : FS) (cwd : String) (args : List String) : CommandResult × FS :=
  if args = [] then (⟨"", "rm: missing operand", false⟩, fs)
  else
    let recursive := args.contains "-r" || args.contains "-rf"
    let force := args.contains "-f" || args.contains "-rf"
    let files := args.filter (fun a => ! pyStartswith a "-")
    if files = [] then (⟨"", "rm: missing operand", false⟩, fs)
    else
      let r := rmLoop cwd recursive force fs files
      if r.1 = [] then (⟨"", "", true⟩, r.2)
      else (⟨"", String.intercalate "\n" r.1, decide (r.1.length < files.length)⟩, r.2)

/-- Per-target loop of `_rmdir` (it iterates over `args` unfiltered). -/
def rmdirLoop (cwd : String) : FS → List String → List String × FS
  | fs, [] => ([], fs)
  | fs, d :: ds =>
    let p := safePath cwd d
    match osRmdir fs p with
    | .ok fs' => rmdirLoop cwd fs' ds
    | .error e =>
      let (es, fs') := rmdirLoop cwd fs ds
      (("rmdir: " ++ d ++ ": " ++ e.str) :: es, fs')

/-- `TerminalEmulator._rmdir`. -/
def tRmdir (fs : FS) (cwd : String) (args : List String) : CommandResult × FS :=
  if args = [] then (⟨"", "rmdir: missing operand", false⟩, fs)
  else
    let r := rmdirLoop cwd fs args
    if r.1 = [] then (⟨"", "", true⟩, r.2)
    else (⟨"", String.intercalate "\n" r.1, false⟩, r.2)

/-- One source of the `_cp` loop. -/
def cpStep (fs : FS) (cwd : String) (recursive : Bool) (dest_path source : String) :
    Option String × FS :=
  let source_path := safePath cwd source
  if osIsdir fs source_path then
    if recursive then
      let dst := if osIsdir fs dest_path
        then joinPath dest_path (basename source_path) else dest_path
      match shutilCopytree fs source_path dst with
      | .ok fs' => (none, fs')
      | .error e => (some ("cp: " ++ source ++ ": " ++ e.str), fs)
    else (some ("cp: " ++ source ++ ": is a directory (not copied)"), fs)
  else
    match shutilCopy2 fs source_path dest_path with
    | .ok fs' => (none, fs')
    | .error e => (some ("cp: " ++ source ++ ": " ++ e.str), fs)

/-- Per-source loop of `_cp`. -/
def cpLoop (cwd : String) (recursive : Bool) (dest_path : String) :
    FS → List String → List String × FS
  | fs, [] => ([], fs)
  | fs, s :: ss =>
    match cpStep fs cwd recursive dest_path s with
    | (none, fs') => cpLoop cwd recursive dest_path fs' ss
    | (some e, fs') =>
      let (es, fs'') := cpLoop cwd recursive dest_path fs' ss
      (e :: es, fs'')

/-- `TerminalEmulator._cp`. -/
def tCp (fs : FS) (cwd : String) (args : List String) : CommandResult × FS :=
  if args.length < 2 then (⟨"", "cp: missing file operand", false⟩, fs)
  else
    let recursive := args.contains "-r"
    let sources := args.dropLast.filter (fun a => ! pyStartswith a "-")
    let dest := args.getLastD ""
    if sources = [] then (⟨"", "cp: missing file operand", false⟩, fs)
    else
      let dest_path := safePath cwd dest
      let r := cpLoop cwd recursive dest_path fs sources
      if r.1 = [] then (⟨"", "", true⟩, r.2)
      else (⟨"", String.intercalate "\n" r.1, decide (r.1.length < sources.length)⟩, r.2)

/-- Per-source loop of `_mv` (the source list is *not* filtered for
flags). -/
def mvLoop (cwd : String) (dest_path : String) :
    FS → List String → List String × FS
  | fs, [] => ([], fs)
  | fs, s :: ss =>
    let source_path := safePath cwd s
    let step := if osIsdir fs dest_path then
        shutilMove fs source_path (joinPath dest_path (basename source_path))
      else shutilMove fs source_path dest_path
    match step with
    | .ok fs' => mvLoop cwd dest_path fs' ss
    | .error e =>
      let (es, fs') := mvLoop cwd dest_path fs ss
      (("mv: " ++ s ++ ": " ++ e.str) :: es, fs')

/-- `TerminalEmulator._mv`. -/
def tMv (fs : FS) (cwd : String) (args : List String) : CommandResult × FS :=
  if args.length < 2 then (⟨"", "mv: missing file operand", false⟩, fs)
  else
    let sources := args.dropLast
    let dest := args.getLastD ""
    let dest_path := safePath cwd dest
    let r := mvLoop cwd dest_path fs sources
    if r.1 = [] then (⟨"", "", true⟩, r.2)
    else (⟨"", String.intercalate "\n" r.1, decide (r.1.length < sources.length)⟩, r.2)

/-- Per-file loop of `_cat`: contents read and errors collected. -/
def catLoop (fs : FS) (cwd : String) : List String → List String × List String
  | [] => ([], [])
  | f :: rest =>
    let (outs, errs) := catLoop fs cwd rest
    match osReadFile fs (safePath cwd f) with
    | .ok content => (content :: outs, errs)
    | .error .notFound => (outs, ("cat: " ++ f ++ ": No such file or directory") :: errs)
    | .error .isADir => (outs, ("cat: " ++ f ++ ": Is a directory") :: errs)

/-- `TerminalEmulator._cat`. -/
def tCat (fs : FS) (cwd : String) (args : List String) : CommandResult :=
  if args = [] then ⟨"", "cat: missing file operand", false⟩
  else
    let r := catLoop fs cwd args
    ⟨String.join r.1, String.intercalate "\n" r.2, decide (r.2.length = 0)⟩

/-- Per-file loop of `_touch`. -/
def touchLoop (env : Env) (cwd : String) : FS → List String → List String × FS
  | fs, [] => ([], fs)
  | fs, f :: rest =>
    match pathTouch env fs (safePath cwd f) with
    | .ok fs' => touchLoop env cwd fs' rest
    | .error e =>
      let (es, fs') := touchLoop env cwd fs rest
      (("touch: " ++ f ++ ": " ++ e.str) :: es, fs')

/-- `TerminalEmulator._touch`. -/
def tTouch (env : Env) (fs : FS) (cwd : String) (args : List String) :
    CommandResult × FS :=
  if args = [] then (⟨"", "touch: missing file operand", false⟩, fs)
  else
    let r := touchLoop env cwd fs args
    if r.1 = [] then (⟨"", "", true⟩, r.2)
    else (⟨"", String.intercalate "\n" r.1, false⟩, r.2)

/-- `TerminalEmulator._echo`. -/
def tEcho (args : List String) : CommandResult :=
  ⟨String.intercalate " " args, "", true⟩

/-- The numbering loop of `_history`
(`enumerate(self.command_history[-50:], 1)`). -/
def numberLines (i : Nat) : List String → List String
  | [] => []
  | c :: cs => (pyRightAlign 4 (toString i) ++ "  " ++ c) :: numberLines (i + 1) cs

/-- `TerminalEmulator._history`. -/
def tHistory (hist : List String) : CommandResult :=
  if hist = [] then ⟨"", "", true⟩
  else ⟨String.intercalate "\n" (numberLines 1 (pyLastN 50 hist)), "", true⟩

/-- `TerminalEmulator._system_info` (the f-string over `platform` and
`datetime` values, which are `Env` inputs here). -/
def tSystemInfo (env : Env) : CommandResult :=
  ⟨"System Information (Web Environment):\n" ++
   String.mk (List.replicate 48 '=') ++ "\n" ++
   "Platform: " ++ env.platSystem ++ " " ++ env.platRelease ++ "\n" ++
   "Architecture: " ++ env.platArch ++ "\n\n" ++
   "Environment: Render Web Service\n" ++
   "Workspace: /tmp/terminal_workspace (ephemeral)\n" ++
   "Python Version: " ++ env.pyVersion ++ "\n\n" ++
   "Boot Time: " ++ env.bootTime ++ "\n\n" ++
   "Note: This is a sandboxed web terminal. File operations are \n" ++
   "restricted to the workspace directory for security.\n", "", true⟩

/-- `TerminalEmulator._process_list`. -/
def tProcessList : CommandResult :=
  ⟨"Process listing restricted in web environment for security.", "", true⟩

/-- `TerminalEmulator._help` (fixed reference text). -/
def tHelp : CommandResult :=
  ⟨"Available Commands (Web Terminal):\n" ++
   String.mk (List.replicate 48 '=') ++ "\n\n" ++
   "File Operations:\n" ++
   "  ls [options] [path]     List directory contents (-l for long format, -a for hidden files)\n" ++
   "  cd [path]              Change directory (within workspace)\n" ++
   "  pwd                    Print working directory\n" ++
   "  mkdir [-p] <dirs>      Create directories (-p for recursive)\n" ++
   "  rm [-rf] <files>       Remove files/directories (-r recursive, -f force)\n" ++
   "  rmdir <dirs>           Remove empty directories\n" ++
   "  cp [-r] <src> <dest>   Copy files/directories (-r for recursive)\n" ++
   "  mv <src> <dest>        Move/rename files/directories\n" ++
   "  cat <files>            Display file contents\n" ++
   "  touch <files>          Create empty files or update timestamps\n" ++
   "  echo <text>            Display text\n\n" ++
   "System Operations:\n" ++
   "  sysinfo / system       Show system information\n" ++
   "  history                Show command history\n" ++
   "  clear                  Clear screen\n" ++
   "  help                   Show this help message\n\n" ++
   "Natural Language:\n" ++
   "  nl: <command>          Execute natural language command\n" ++
   "  natural: <command>     Execute natural language command\n" ++
   "  \n" ++
   "Examples of natural language commands:\n" ++
   "  nl: create a folder called test\n" ++
   "  nl: move file.txt to the documents folder\n" ++
   "  nl: show me all files in this directory\n" ++
   "  nl: delete temp.txt\n\n" ++
   "Aliases:\n" ++
   "  ll                     ls -la\n" ++
   "  la                     ls -a\n\n" ++
   "Note: This is a sandboxed web terminal. System commands and file \n" ++
   "operations outside the workspace are restricted for security.\n", "", true⟩

/-! ### The intent matcher (`_process_natural_language`)

Each `re.search` call of the source is embedded as a scanner with
Python's regex semantics for the patterns involved: the match starts at
the leftmost viable position; `.*` (which does not cross `'\n'`) and
the optional groups are greedy, longer/present alternatives tried
first; alternations are tried in written order.  `\s+` before a token
of non-space characters and a final `\S+`/`\w+` group are exactly
maximal-munch, which this embedding uses. -/

/-- `\w` (ASCII: the inputs evaluated here are ASCII). -/
def isWordChar (c : Char) : Bool :=
  c.isAlpha || c.isDigit || c = '_'

/-- A literal regex piece: consume `lit` or fail. -/
def litP (lit : String) (cs : List Char) : Option (List Char) :=
  if lit.data.isPrefixOf cs then some (cs.drop lit.data.length) else none

/-- An alternation of literals: every remainder it can produce, in the
pattern's priority order. -/
def altsP (lits : List String) (cs : List Char) : List (List Char) :=
  lits.filterMap (fun l => litP l cs)

/-- Remainders a greedy `.*` can leave, longest consumption first
(`.` does not match `'\n'`). -/
def dotStarSuffixes (cs : List Char) : List (List Char) :=
  let m := (cs.takeWhile (· ≠ '\n')).length
  (List.range (m + 1)).reverse.map (fun k => cs.drop k)

/-- `\s+` followed by a non-space token: exactly the maximal whitespace
run, which must be non-empty. -/
def wsPlus (cs : List Char) : Option (List Char) :=
  let sp := cs.takeWhile isSpaceChar
  if sp = [] then none else some (cs.drop sp.length)

/-- A final `(\w+)` group: the maximal non-empty word-character run. -/
def wordGroup (cs : List Char) : Option String :=
  let w := cs.takeWhile isWordChar
  if w = [] then none else some (String.mk w)

/-- The maximal `\S*` run. -/
def nonspaceTake (cs : List Char) : List Char :=
  cs.takeWhile (fun c => ! isSpaceChar c)

/-- Greedy optional group `(?:lit\s+)?`: remainders in priority order
(with the group first, then without). -/
def optLitWs (lit : String) (cs : List Char) : List (List Char) :=
  (match (litP lit cs).bind wsPlus with
   | some r => [r]
   | none => []) ++ [cs]

/-- Leftmost-match search: try the position matcher at each start, left
to right. -/
def searchPos (f : List Char → Option β) : List Char → Option β
  | [] => f []
  | c :: rest =>
    match f (c :: rest) with
    | some b => some b
    | none => searchPos f rest

/-- `create.*(?:folder|directory|dir).*(?:called|named)\s+(\w+)` at one
position. -/
def m1At (cs : List Char) : Option String :=
  (litP "create" cs).bind fun r1 =>
  (dotStarSuffixes r1).findSome? fun r2 =>
  (altsP ["folder", "directory", "dir"] r2).findSome? fun r3 =>
  (dotStarSuffixes r3).findSome? fun r4 =>
  (altsP ["called", "named"] r4).findSome? fun r5 =>
  (wsPlus r5).bind fun r6 =>
  wordGroup r6

/-- First create-folder pattern of `_process_natural_language`. -/
def reCreateFolder1 (s : String) : Option String := searchPos m1At s.data

/-- `(?:make|create)\s+(?:a\s+)?(?:folder|directory|dir)\s+(\w+)` at one
position. -/
def m2At (cs : List Char) : Option String :=
  (altsP ["make", "create"] cs).findSome? fun r1 =>
  (wsPlus r1).bind fun r2 =>
  (optLitWs "a" r2).findSome? fun r3 =>
  (altsP ["folder", "directory", "dir"] r3).findSome? fun r4 =>
  (wsPlus r4).bind fun r5 =>
  wordGroup r5

/-- Second create-folder pattern. -/
def reCreateFolder2 (s : String) : Option String := searchPos m2At s.data

/-- `<verb>\s+(\S+)\s+(?:to|into)\s+(?:the\s+)?(\S+)` at one position
(the move/copy patterns). -/
def mvCpAt (verb : String) (cs : List Char) : Option (String × String) :=
  (litP verb cs).bind fun r1 =>
  (wsPlus r1).bind fun r2 =>
  let g1 := nonspaceTake r2
  if g1 = [] then none else
  (wsPlus (r2.drop g1.length)).bind fun r3 =>
  (altsP ["to", "into"] r3).findSome? fun r4 =>
  (wsPlus r4).bind fun r5 =>
  (optLitWs "the" r5).findSome? fun r6 =>
  let g2 := nonspaceTake r6
  if g2 = [] then none else some (String.mk g1, String.mk g2)

/-- The move pattern. -/
def reMove (s : String) : Option (String × String) := searchPos (mvCpAt "move") s.data

/-- The copy pattern. -/
def reCopy (s : String) : Option (String × String) := searchPos (mvCpAt "copy") s.data

/-- `(?:delete|remove)\s+(?:file\s+)?(\S+)` at one position. -/
def delAt (cs : List Char) : Option String :=
  (altsP ["delete", "remove"] cs).findSome? fun r1 =>
  (wsPlus r1).bind fun r2 =>
  (optLitWs "file" r2).findSome? fun r3 =>
  let g := nonspaceTake r3
  if g = [] then none else some (String.mk g)

/-- The delete pattern. -/
def reDelete (s : String) : Option String := searchPos delAt s.data

/-- `create.*file.*(?:called|named)\s+(\S+)` at one position. -/
def m6At (cs : List Char) : Option String :=
  (litP "create" cs).bind fun r1 =>
  (dotStarSuffixes r1).findSome? fun r2 =>
  (litP "file" r2).bind fun r3 =>
  (dotStarSuffixes r3).findSome? fun r4 =>
  (altsP ["called", "named"] r4).findSome? fun r5 =>
  (wsPlus r5).bind fun r6 =>
  let g := nonspaceTake r6
  if g = [] then none else some (String.mk g)

/-- The create-file pattern. -/
def reCreateFile (s : String) : Option String := searchPos m6At s.data

/-- `(?:go|navigate)\s+to\s+(\S+)` at one position. -/
def goAt (cs : List Char) : Option String :=
  (altsP ["go", "navigate"] cs).findSome? fun r1 =>
  (wsPlus r1).bind fun r2 =>
  (litP "to" r2).bind fun r3 =>
  (wsPlus r3).bind fun r4 =>
  let g := nonspaceTake r4
  if g = [] then none else some (String.mk g)

/-- The navigate pattern. -/
def reGoTo (s : String) : Option String := searchPos goAt s.data

/-- The priority chain of `_process_natural_language` on the already
stripped and lowered phrase, first match wins. -/
def tNLDispatch (env : Env) (fs : FS) (st : TermState) (nl : String) :
    CommandResult × TermState × FS :=
  match reCreateFolder1 nl with
  | some folder => let r := tMkdir env fs st.current_directory [folder]; (r.1, st, r.2)
  | none =>
    match reCreateFolder2 nl with
    | some folder => let r := tMkdir env fs st.current_directory [folder]; (r.1, st, r.2)
    | none =>
      match reMove nl with
      | some sd => let r := tMv fs st.current_directory [sd.1, sd.2]; (r.1, st, r.2)
      | none =>
        match reCopy nl with
        | some sd => let r := tCp fs st.current_directory [sd.1, sd.2]; (r.1, st, r.2)
        | none =>
          match reDelete nl with
          | some f => let r := tRm fs st.current_directory [f]; (r.1, st, r.2)
          | none =>
            match reCreateFile nl with
            | some f => let r := tTouch env fs st.current_directory [f]; (r.1, st, r.2)
            | none =>
              if pyContains nl "show" && pyContains nl "file" then
                if pyContains nl "python" then
                  if ! osIsdir fs st.current_directory then
                    (⟨"", OsErr.str (.noSuchFile st.current_directory), false⟩, st, fs)
                  else if (osListdir fs st.current_directory).filter
                      (fun f => pyEndswith f ".py") ≠ [] then
                    (⟨String.intercalate "\n" ((osListdir fs st.current_directory).filter
                      (fun f => pyEndswith f ".py")), "", true⟩, st, fs)
                  else (⟨"No Python files found in current directory", "", true⟩, st, fs)
                else (tLs fs st.current_directory [], st, fs)
              else
                match reGoTo nl with
                | some d => let r := tCd fs st [d]; (r.1, r.2, fs)
                | none =>
                  if pyContains nl "system" || pyContains nl "info" ||
                     pyContains nl "stats" || pyContains nl "performance" then
                    (tSystemInfo env, st, fs)
                  else
                    (⟨"I didn't understand the command: '" ++ nl ++
                      "'\n\nTry commands like:\n- create a folder test\n- move file.txt to documents\n- show me files\n- delete temp.txt",
                      "", false⟩, st, fs)

/-- `TerminalEmulator._process_natural_language`: strip and lower the
phrase, then run the priority chain. -/
def tNaturalLanguage (env : Env) (fs : FS) (st : TermState) (nlRaw : String) :
    CommandResult × TermState × FS :=
  tNLDispatch env fs st (pyLower (pyStrip nlRaw))

/-! ### Completion (`get_completions`) -/

/-- The command-name table of `get_completions`, in declaration order. -/
def COMMANDS : List String :=
  ["ls", "cd", "pwd", "mkdir", "rm", "rmdir", "cp", "mv", "cat", "touch", "echo",
   "history", "clear", "help", "sysinfo", "ps", "nl:", "natural:"]

/-- The entry-matching part of `get_completions`: list `search_dir`,
keep entries starting with `file_part`, mark directories with `/`, cap
at 10.  A missing `search_dir` yields `[]`; so does a non-directory one
(`os.listdir` raises and the bare `except` swallows it). -/
def completeIn (fs : FS) (search_dir file_part : String) : List String :=
  if osExists fs search_dir then
    if osIsdir fs search_dir then
      ((osListdir fs search_dir).filterMap (fun item =>
        if pyStartswith item file_part then
          some (item ++ (if osIsdir fs (joinPath search_dir item) then "/" else ""))
        else none)).take 10
    else []
  else []

/-- The path-fragment branch of `get_completions`: split the fragment at
its last `/` into a directory (resolved through `_safe_path`) and a
prefix. -/
def completePath (fs : FS) (cwd current_input : String) : List String :=
  if pyContains current_input "/" then
    completeIn fs
      (safePath cwd (String.intercalate "/" (splitSlash current_input).dropLast))
      ((splitSlash current_input).getLastD "")
  else completeIn fs cwd current_input

/-- `TerminalEmulator.get_completions`.  An empty split (whitespace-only
input) raises `IndexError` at `parts[-1]`, which the bare `except`
swallows into `[]`. -/
def getCompletions (fs : FS) (st : TermState) (pline : String) : List String :=
  if pline = "" then []
  else
    match pySplit pline with
    | [] => []
    | [t] => COMMANDS.filter (fun c => pyStartswith c (pyLower t))
    | t1 :: t2 :: ts =>
      completePath fs st.current_directory ((t1 :: t2 :: ts).getLastD "")

/-! ### The dispatcher (`execute_command`) -/

/-- The history-append step at the top of `execute_command`. -/
def histAppend (hist : List String) (command : String) : List String :=
  if pyStrip command ≠ "" ∧ (hist = [] ∨ hist.getLast? ≠ some command) then
    if 1000 < (hist ++ [command]).length then (hist ++ [command]).tail
    else hist ++ [command]
  else hist

/-- The alias loop of `execute_command`: each alias whose token prefixes
the (current) line is substituted once, in dict order. -/
def applyAliases (command : String) : String :=
  aliasTable.foldl (fun cmd al =>
    if pyStartswith cmd al.1 then al.2 ++ strDrop al.1.length cmd else cmd) command

/-- The unknown-command result. -/
def unknownResult (cmd : String) : CommandResult :=
  ⟨"", "Command '" ++ cmd ++
   "' not allowed in web environment. Use built-in commands or natural language.",
   false⟩

/-- The dispatch chain of `execute_command` after parsing: `command` is
the (alias-expanded) raw line, `cmd` the lowered first token. -/
def runBuiltin (env : Env) (fs : FS) (st : TermState) (command cmd : String)
    (args : List String) : CommandResult × TermState × FS :=
  if cmd = "pwd" then (tPwd st.current_directory, st, fs)
  else if cmd = "ls" then (tLs fs st.current_directory args, st, fs)
  else if cmd = "cd" then (let r := tCd fs st args; (r.1, r.2, fs))
  else if cmd = "mkdir" then (let r := tMkdir env fs st.current_directory args; (r.1, st, r.2))
  else if cmd = "rm" then (let r := tRm fs st.current_directory args; (r.1, st, r.2))
  else if cmd = "rmdir" then (let r := tRmdir fs st.current_directory args; (r.1, st, r.2))
  else if cmd = "cp" then (let r := tCp fs st.current_directory args; (r.1, st, r.2))
  else if cmd = "mv" then (let r := tMv fs st.current_directory args; (r.1, st, r.2))
  else if cmd = "cat" then (tCat fs st.current_directory args, st, fs)
  else if cmd = "touch" then (let r := tTouch env fs st.current_directory args; (r.1, st, r.2))
  else if cmd = "echo" then (tEcho args, st, fs)
  else if cmd = "history" then (tHistory st.command_history, st, fs)
  else if cmd = "clear" then (⟨"CLEAR_SCREEN", "", true⟩, st, fs)
  else if cmd = "sysinfo" ∨ cmd = "system" then (tSystemInfo env, st, fs)
  else if cmd = "ps" then (tProcessList, st, fs)
  else if cmd = "help" then (tHelp, st, fs)
  else if pyStartswith cmd "nl:" then tNaturalLanguage env fs st (strDrop 3 command)
  else if pyStartswith cmd "natural:" then tNaturalLanguage env fs st (strDrop 8 command)
  else (unknownResult cmd, st, fs)

/-- `TerminalEmulator.execute_command`: record history (on the raw
line), expand aliases, tokenize, dispatch.  The model's handlers are
total, so the top-level `except` of the source never fires. -/
def executeCommand (env : Env) (fs : FS) (st : TermState) (command : String) :
    CommandResult × TermState × FS :=
  match pySplit (pyStrip (applyAliases command)) with
  | [] =>
    (⟨"", "", true⟩,
     { st with command_history := histAppend st.command_history command }, fs)
  | c :: args =>
    runBuiltin env fs
      { st with command_history := histAppend st.command_history command }
      (applyAliases command) (pyLower c) args

/-- A whole session: fold `execute_command` over a list of raw lines. -/
def runAll (env : Env) : FS → TermState → List String → TermState × FS
  | fs, st, [] => (st, fs)
  | fs, st, c :: cs =>
    let r := executeCommand env fs st c
    runAll env r.2.2 r.2.1 cs

/-! ### Concrete instances used by witnesses -/

/-- A concrete environment. -/
def env0 : Env := ⟨"Linux", "5.0", "64bit", "3.11.0", "2026-01-01 00:00:00", "Jan 01 00:00", 4096⟩

/-- The filesystem right after `__init__`: just the workspace root. -/
def fs0 : FS := ⟨[(baseDir, .dir ⟨4096, "Jan 01 00:00"⟩)]⟩

/-- A filesystem where `a` already exists under the root (first `mkdir`
target collides, the second succeeds). -/
def fsC2 : FS :=
  ⟨[(baseDir, .dir ⟨4096, "Jan 01 00:00"⟩),
    ("/tmp/terminal_workspace/a", .dir ⟨4096, "Jan 01 00:00"⟩)]⟩

/-- A filesystem with one regular file under the root. -/
def fsFile : FS :=
  ⟨[(baseDir, .dir ⟨4096, "Jan 01 00:00"⟩),
    ("/tmp/terminal_workspace/f.txt", .file "" ⟨0, "Jan 01 00:00"⟩)]⟩

/-- The data of `COMMANDS`, exposed as character lists. -/
def COMMANDSdata : List (List Char) :=
  [['l','s'], ['c','d'], ['p','w','d'], ['m','k','d','i','r'], ['r','m'],
   ['r','m','d','i','r'], ['c','p'], ['m','v'], ['c','a','t'],
   ['t','o','u','c','h'], ['e','c','h','o'],
   ['h','i','s','t','o','r','y'], ['c','l','e','a','r'], ['h','e','l','p'],
   ['s','y','s','i','n','f','o'], ['p','s'], ['n','l',':'],
   ['n','a','t','u','r','a','l',':']]


/-! ### Helper lemmas -/

theorem isPrefixOf_cons_cons (a b : Char) (l1 l2 : List Char) :
    List.isPrefixOf (a :: l1) (b :: l2) = (a == b && List.isPrefixOf l1 l2) := rfl

theorem head_eq_of_isPrefixOf_cons {h : Char} {rest d : List Char}
    (hp : List.isPrefixOf (h :: rest) d = true) : d.head? = some h := by
  cases d with
  | nil => simp [List.isPrefixOf] at hp
  | cons b l =>
    rw [isPrefixOf_cons_cons, Bool.and_eq_true] at hp
    simp [eq_of_beq hp.1]

theorem commands_map_data : COMMANDS.map String.data = COMMANDSdata := by decide

/-- No character heads more than 4 of the command names (the `c` group
`cd`, `cp`, `cat`, `clear` is the largest). -/
theorem commandsdata_headCount_le (h : Char) :
    List.countP (fun d => d.head? == some h) COMMANDSdata ≤ 4 := by
  by_cases h1 : h = 'l'
  · subst h1; decide
  by_cases h2 : h = 'c'
  · subst h2; decide
  by_cases h3 : h = 'p'
  · subst h3; decide
  by_cases h4 : h = 'm'
  · subst h4; decide
  by_cases h5 : h = 'r'
  · subst h5; decide
  by_cases h6 : h = 't'
  · subst h6; decide
  by_cases h7 : h = 'e'
  · subst h7; decide
  by_cases h8 : h = 'h'
  · subst h8; decide
  by_cases h9 : h = 's'
  · subst h9; decide
  by_cases h10 : h = 'n'
  · subst h10; decide
  have hz : List.countP (fun d => d.head? == some h) COMMANDSdata = 0 := by
    rw [List.countP_eq_zero]
    intro d hd
    fin_cases hd <;>
      (intro hcc
       have h'' := Option.some.inj (eq_of_beq hcc)
       first
         | exact h1 h''.symm
         | exact h2 h''.symm
         | exact h3 h''.symm
         | exact h4 h''.symm
         | exact h5 h''.symm
         | exact h6 h''.symm
         | exact h7 h''.symm
         | exact h8 h''.symm
         | exact h9 h''.symm
         | exact h10 h''.symm)
  omega

/-- A non-empty token prefix-matches at most 4 of the 18 command names
(they must share its first character). -/
theorem commands_filter_length_le (u : String) (hu : u.data ≠ []) :
    (COMMANDS.filter (fun c => pyStartswith c u)).length ≤ 10 := by
  obtain ⟨h, rest, hdata⟩ : ∃ h rest, u.data = h :: rest := by
    cases hd : u.data with
    | nil => exact absurd hd hu
    | cons a l => exact ⟨a, l, rfl⟩
  have mono : ∀ c ∈ COMMANDS, pyStartswith c u = true → (c.data.head? == some h) = true := by
    intro c _ hp
    unfold pyStartswith at hp
    rw [hdata] at hp
    rw [head_eq_of_isPrefixOf_cons hp]
    exact beq_self_eq_true _
  calc (COMMANDS.filter (fun c => pyStartswith c u)).length
      = List.countP (fun c => pyStartswith c u) COMMANDS :=
        (List.countP_eq_length_filter _ _).symm
    _ ≤ List.countP (fun c => c.data.head? == some h) COMMANDS :=
        List.countP_mono_left mono
    _ = List.countP (fun d => d.head? == some h) (COMMANDS.map String.data) := by
        rw [List.countP_map]; rfl
    _ = List.countP (fun d => d.head? == some h) COMMANDSdata := by
        rw [commands_map_data]
    _ ≤ 4 := commandsdata_headCount_le h
    _ ≤ 10 := by omega

/-- Tokens produced by `split()` are never empty. -/
theorem mem_pySplitAux_ne_empty :
    ∀ (cs acc : List Char), ∀ t ∈ pySplitAux cs acc, t ≠ "" := by
  intro cs
  induction cs with
  | nil =>
    intro acc t ht hemp
    unfold pySplitAux at ht
    by_cases hacc : acc = []
    · simp [hacc] at ht
    · rw [if_neg hacc] at ht
      rw [List.mem_singleton] at ht
      subst ht
      have : acc.reverse = [] := by
        have := congrArg String.data hemp
        simpa using this
      exact hacc (by simpa using congrArg List.reverse this)
  | cons c cs ih =>
    intro acc t ht hemp
    unfold pySplitAux at ht
    by_cases hsp : isSpaceChar c = true
    · rw [if_pos hsp] at ht
      by_cases hacc : acc = []
      · rw [if_pos hacc] at ht
        exact ih [] t ht hemp
      · rw [if_neg hacc] at ht
        rcases List.mem_cons.mp ht with h1 | h1
        · subst h1
          have : acc.reverse = [] := by
            have := congrArg String.data hemp
            simpa using this
          exact hacc (by simpa using congrArg List.reverse this)
        · exact ih [] t h1 hemp
    · rw [if_neg hsp] at ht
      exact ih (c :: acc) t ht hemp

/-- Tokens of `pySplit` are non-empty. -/
theorem mem_pySplit_ne_empty (s : String) : ∀ t ∈ pySplit s, t ≠ "" :=
  mem_pySplitAux_ne_empty s.data []

/-- `lower` keeps a string non-empty. -/
theorem pyLower_data_ne_nil {t : String} (h : t ≠ "") : (pyLower t).data ≠ [] := by
  intro hc
  apply h
  unfold pyLower at hc
  have : t.data.map Char.toLower = [] := by simpa using hc
  have hd : t.data = [] := by
    cases hdd : t.data with
    | nil => rfl
    | cons a l => rw [hdd] at this; simp at this
  cases t with
  | mk d => simp at hd; simp [hd]

/-- A string whose `strip()` is empty is all whitespace. -/
theorem all_space_of_pyStrip_empty {s : String} (h : pyStrip s = "") :
    ∀ c ∈ s.data, isSpaceChar c = true := by
  have hl : ((s.data.dropWhile isSpaceChar).reverse.dropWhile isSpaceChar).reverse = [] := by
    have := congrArg String.data h
    simpa [pyStrip] using this
  have h2 : (s.data.dropWhile isSpaceChar).reverse.dropWhile isSpaceChar = [] := by
    simpa using congrArg List.reverse hl
  have h3 : ∀ c ∈ (s.data.dropWhile isSpaceChar).reverse, isSpaceChar c = true :=
    List.dropWhile_eq_nil_iff.mp h2
  have h4 : ∀ c ∈ s.data.dropWhile isSpaceChar, isSpaceChar c = true := by
    intro c hc
    exact h3 c (List.mem_reverse.mpr hc)
  intro c hc
  have hsplit : s.data.takeWhile isSpaceChar ++ s.data.dropWhile isSpaceChar = s.data :=
    List.takeWhile_append_dropWhile isSpaceChar s.data
  rw [← hsplit] at hc
  rcases List.mem_append.mp hc with h5 | h5
  · exact List.mem_takeWhile_imp h5
  · exact h4 c h5

/-- An all-whitespace line starts with no token whose first character is
not whitespace. -/
theorem pyStartswith_false_of_blank {cmd : String} (pre : String)
    (hall : ∀ c ∈ cmd.data, isSpaceChar c = true)
    {c0 : Char} {rest : List Char} (hpre : pre.data = c0 :: rest)
    (hc0 : isSpaceChar c0 = false) : pyStartswith cmd pre = false := by
  unfold pyStartswith
  rw [hpre]
  cases hd : cmd.data with
  | nil => rfl
  | cons a l =>
    rw [isPrefixOf_cons_cons]
    cases hb : (c0 == a) with
    | false => rw [Bool.false_and]
    | true =>
      exfalso
      have he := eq_of_beq hb
      have : isSpaceChar c0 = true := he ▸ hall a (hd ▸ List.mem_cons_self a l)
      rw [hc0] at this
      exact Bool.false_ne_true this

/-- Aliases do not fire on a blank line. -/
theorem applyAliases_blank {cmd : String} (h : pyStrip cmd = "") :
    applyAliases cmd = cmd := by
  have hall := all_space_of_pyStrip_empty h
  have h1 := pyStartswith_false_of_blank "ll" hall rfl rfl
  have h2 := pyStartswith_false_of_blank "la" hall rfl rfl
  have h3 := pyStartswith_false_of_blank "clear" hall rfl rfl
  simp [applyAliases, aliasTable, h1, h2, h3]

/-- `split()` of an all-whitespace string is empty. -/
theorem pySplitAux_all_space :
    ∀ (cs : List Char), (∀ c ∈ cs, isSpaceChar c = true) → pySplitAux cs [] = [] := by
  intro cs
  induction cs with
  | nil => intro _; rfl
  | cons c rest ih =>
    intro hall
    unfold pySplitAux
    rw [if_pos (hall c (List.mem_cons_self c rest))]
    rw [if_pos rfl]
    exact ih (fun x hx => hall x (List.mem_cons_of_mem c hx))

/-- The history-append condition fails on a blank line. -/
theorem histAppend_blank {hist : List String} {cmd : String} (h : pyStrip cmd = "") :
    histAppend hist cmd = hist := by
  unfold histAppend
  rw [if_neg]
  intro hcon
  exact hcon.1 h

/-- `_cd` never touches the history. -/
theorem tCd_hist (fs : FS) (st : TermState) (args : List String) :
    (tCd fs st args).2.command_history = st.command_history := by
  unfold tCd
  cases args with
  | nil => rfl
  | cons t rest =>
    dsimp only
    split_ifs <;> rfl

/-- The intent chain never touches the history. -/
theorem tNLDispatch_hist (env : Env) (fs : FS) (st : TermState) (nl : String) :
    (tNLDispatch env fs st nl).2.1.command_history = st.command_history := by
  unfold tNLDispatch
  cases reCreateFolder1 nl with
  | some f => rfl
  | none =>
  cases reCreateFolder2 nl with
  | some f => rfl
  | none =>
  cases reMove nl with
  | some sd => rfl
  | none =>
  cases reCopy nl with
  | some sd => rfl
  | none =>
  cases reDelete nl with
  | some f => rfl
  | none =>
  cases reCreateFile nl with
  | some f => rfl
  | none =>
  by_cases h7 : (pyContains nl "show" && pyContains nl "file") = true
  · rw [if_pos h7]
    split_ifs <;> rfl
  · rw [if_neg h7]
    cases reGoTo nl with
    | some d => exact tCd_hist _ _ _
    | none => split_ifs <;> rfl

/-- `_process_natural_language` never touches the history. -/
theorem tNaturalLanguage_hist (env : Env) (fs : FS) (st : TermState) (nl : String) :
    (tNaturalLanguage env fs st nl).2.1.command_history = st.command_history :=
  tNLDispatch_hist env fs st (pyLower (pyStrip nl))

/-- No dispatch branch touches the history. -/
theorem runBuiltin_hist (env : Env) (fs : FS) (st : TermState) (command cmd : String)
    (args : List String) :
    (runBuiltin env fs st command cmd args).2.1.command_history = st.command_history := by
  unfold runBuiltin
  by_cases h1 : cmd = "pwd"
  · rw [if_pos h1]
  rw [if_neg h1]
  by_cases h2 : cmd = "ls"
  · rw [if_pos h2]
  rw [if_neg h2]
  by_cases h3 : cmd = "cd"
  · rw [if_pos h3]
    exact tCd_hist _ _ _
  rw [if_neg h3]
  by_cases h4 : cmd = "mkdir"
  · rw [if_pos h4]
  rw [if_neg h4]
  by_cases h5 : cmd = "rm"
  · rw [if_pos h5]
  rw [if_neg h5]
  by_cases h6 : cmd = "rmdir"
  · rw [if_pos h6]
  rw [if_neg h6]
  by_cases h7 : cmd = "cp"
  · rw [if_pos h7]
  rw [if_neg h7]
  by_cases h8 : cmd = "mv"
  · rw [if_pos h8]
  rw [if_neg h8]
  by_cases h9 : cmd = "cat"
  · rw [if_pos h9]
  rw [if_neg h9]
  by_cases h10 : cmd = "touch"
  · rw [if_pos h10]
  rw [if_neg h10]
  by_cases h11 : cmd = "echo"
  · rw [if_pos h11]
  rw [if_neg h11]
  by_cases h12 : cmd = "history"
  · rw [if_pos h12]
  rw [if_neg h12]
  by_cases h13 : cmd = "clear"
  · rw [if_pos h13]
  rw [if_neg h13]
  by_cases h14 : cmd = "sysinfo" ∨ cmd = "system"
  · rw [if_pos h14]
  rw [if_neg h14]
  by_cases h15 : cmd = "ps"
  · rw [if_pos h15]
  rw [if_neg h15]
  by_cases h16 : cmd = "help"
  · rw [if_pos h16]
  rw [if_neg h16]
  by_cases h17 : pyStartswith cmd "nl:" = true
  · rw [if_pos h17]
    exact tNaturalLanguage_hist _ _ _ _
  rw [if_neg h17]
  by_cases h18 : pyStartswith cmd "natural:" = true
  · rw [if_pos h18]
    exact tNaturalLanguage_hist _ _ _ _
  rw [if_neg h18]

/-- `execute_command` updates the history exactly through `histAppend`
on the raw line. -/
theorem executeCommand_hist (env : Env) (fs : FS) (st : TermState) (command : String) :
    (executeCommand env fs st command).2.1.command_history =
      histAppend st.command_history command := by
  unfold executeCommand
  split
  · rfl
  · exact runBuiltin_hist _ _ _ _ _ _

/-- One `histAppend` keeps the history within the 1000-entry bound. -/
theorem histAppend_length_le {hist : List String} {cmd : String}
    (h : hist.length ≤ 1000) : (histAppend hist cmd).length ≤ 1000 := by
  unfold histAppend
  split_ifs with h1 h2
  · rw [List.length_tail, List.length_append]
    simp only [List.length_cons, List.length_nil]
    omega
  · rw [List.length_append] at h2 ⊢
    simp only [List.length_cons, List.length_nil] at h2 ⊢
    omega
  · exact h

/-- Any run keeps the history within the 1000-entry bound. -/
theorem runAll_hist_le (env : Env) (cmds : List String) :
    ∀ (fs : FS) (st : TermState), st.command_history.length ≤ 1000 →
      ((runAll env fs st cmds).1).command_history.length ≤ 1000 := by
  induction cmds with
  | nil => intro fs st h; exact h
  | cons c cs ih =>
    intro fs st h
    unfold runAll
    apply ih
    rw [executeCommand_hist]
    exact histAppend_length_le h

/-- The numbering loop of `_history`, as a `mapIdx`. -/
theorem numberLines_eq (n : Nat) (l : List String) :
    numberLines n l =
      l.mapIdx (fun i c => pyRightAlign 4 (toString (n + i)) ++ "  " ++ c) := by
  induction l generalizing n with
  | nil => rfl
  | cons a l ih =>
    rw [List.mapIdx_cons]
    unfold numberLines
    congr 1
    rw [ih (n + 1)]
    congr 1
    funext i c
    have hx : n + (i + 1) = n + 1 + i := by omega
    rw [hx]

example : safePath baseDir "demo" = "/tmp/terminal_workspace/demo" := by rfl
example : safePath baseDir "" = baseDir := by rfl
example : safePath baseDir "/etc/passwd" = "/tmp/terminal_workspace/passwd" := by rfl
example : safePath baseDir "../../etc" = baseDir := by rfl
example : safePath baseDir "/tmp/terminal_workspace_evil" = "/tmp/terminal_workspace_evil" := by rfl
example : safePath baseDir "../terminal_workspace_evil" = "/tmp/terminal_workspace_evil" := by rfl

/-! ### Claim theorems -/

/-- C1: the spec asserts that for every current directory satisfying the
confinement invariant and every user path, `_safe_path` returns a path
equal to or a descendant of the workspace root.  The code checks
confinement with a string `startswith` test, so a sibling path sharing
the root as a string prefix escapes: with `cwd = baseDir` (which itself
satisfies the invariant), both the absolute input
`/tmp/terminal_workspace_evil` and the relative input
`../terminal_workspace_evil` resolve to `/tmp/terminal_workspace_evil`,
which is neither the root nor a descendant of it.  This contradicts the
function's own docstring ("Ensure path stays within the safe
directory"), so the code, not the claim, is wrong. -/
theorem c1_confinement_escape :
    isWithin baseDir baseDir = true ∧
    safePath baseDir "/tmp/terminal_workspace_evil" = "/tmp/terminal_workspace_evil" ∧
    isWithin baseDir (safePath baseDir "/tmp/terminal_workspace_evil") = false ∧
    safePath baseDir "../terminal_workspace_evil" = "/tmp/terminal_workspace_evil" ∧
    isWithin baseDir (safePath baseDir "../terminal_workspace_evil") = false :=
  ⟨rfl, rfl, rfl, rfl, rfl⟩

/-- C5 counterexample: the claim says an absolute path whose
normalization is not a descendant of the root resolves to
`root/basename(path)`, and a relative path whose join escapes resolves
to the root.  `/tmp/terminal_workspace_evil` normalizes to itself — not
a descendant of the root — yet the resolver returns it unchanged
instead of `root/terminal_workspace_evil`; likewise the relative
`../terminal_workspace_evil` joins and normalizes to an escaping path
but the resolver does not clamp it to the root.  The code's test is a
string-prefix test, not a descendant test. -/
theorem c5_counterexample :
    (isWithin baseDir (normpath "/tmp/terminal_workspace_evil") = false ∧
     safePath baseDir "/tmp/terminal_workspace_evil" ≠
       joinPath baseDir (basename "/tmp/terminal_workspace_evil")) ∧
    (isWithin baseDir (normpath (joinPath baseDir "../terminal_workspace_evil")) = false ∧
     safePath baseDir "../terminal_workspace_evil" ≠ baseDir) :=
  ⟨⟨rfl, by decide⟩, ⟨rfl, by decide⟩⟩

/-- C5 amended: for an absolute user path whose normalization does not
have the workspace root as a *string prefix*, the resolver returns the
root joined with the basename of the user path; for a (non-empty)
relative user path whose join with the current directory normalizes to
a path without that string prefix, it returns the root itself; in the
complementary cases the normalized path is returned unchanged. -/
theorem c5_amended (cwd p : String) :
    (pyStartswith p "/" = true →
      pyStartswith (normpath p) baseDir = false →
      safePath cwd p = joinPath baseDir (basename p)) ∧
    (p ≠ "" → pyStartswith p "/" = false →
      pyStartswith (normpath (joinPath cwd p)) baseDir = false →
      safePath cwd p = baseDir) ∧
    (pyStartswith p "/" = true →
      pyStartswith (normpath p) baseDir = true →
      safePath cwd p = normpath p) ∧
    (p ≠ "" → pyStartswith p "/" = false →
      pyStartswith (normpath (joinPath cwd p)) baseDir = true →
      safePath cwd p = normpath (joinPath cwd p)) := by
  have habs : pyStartswith p "/" = true → p ≠ "" := by
    intro h1 he
    subst he
    simp [pyStartswith, List.isPrefixOf] at h1
  refine ⟨?_, ?_, ?_, ?_⟩
  · intro h1 h2
    simp [safePath, habs h1, h1, h2]
  · intro hne h1 h2
    simp [safePath, hne, h1, h2]
  · intro h1 h2
    simp [safePath, habs h1, h1, h2]
  · intro hne h1 h2
    simp [safePath, hne, h1, h2]

/-- Witness for the amended C5 at concrete inputs: `/etc/passwd` is
reinterpreted under the root by basename; `../../etc` is clamped to the
root; `/tmp/terminal_workspace/x` passes through. -/
theorem c5_amended_witness :
    (pyStartswith "/etc/passwd" "/" = true ∧
     pyStartswith (normpath "/etc/passwd") baseDir = false ∧
     safePath baseDir "/etc/passwd" = joinPath baseDir (basename "/etc/passwd")) ∧
    (("../../etc" : String) ≠ "" ∧
     pyStartswith "../../etc" "/" = false ∧
     pyStartswith (normpath (joinPath baseDir "../../etc")) baseDir = false ∧
     safePath baseDir "../../etc" = baseDir) ∧
    (pyStartswith "/tmp/terminal_workspace/x" "/" = true ∧
     pyStartswith (normpath "/tmp/terminal_workspace/x") baseDir = true ∧
     safePath baseDir "/tmp/terminal_workspace/x" = normpath "/tmp/terminal_workspace/x") ∧
    (("x/y" : String) ≠ "" ∧
     pyStartswith "x/y" "/" = false ∧
     pyStartswith (normpath (joinPath baseDir "x/y")) baseDir = true ∧
     safePath baseDir "x/y" = normpath (joinPath baseDir "x/y")) :=
  ⟨⟨rfl, rfl, (c5_amended baseDir "/etc/passwd").1 rfl rfl⟩,
   ⟨by decide, rfl, rfl, (c5_amended baseDir "../../etc").2.1 (by decide) rfl rfl⟩,
   ⟨rfl, rfl, (c5_amended baseDir "/tmp/terminal_workspace/x").2.2.1 rfl rfl⟩,
   ⟨by decide, rfl, rfl, (c5_amended baseDir "x/y").2.2.2 (by decide) rfl rfl⟩⟩

/-- C3: `cd` to a path that does not exist fails with a "No such file
or directory" error and leaves the state untouched; `cd` to a non-
directory fails with "Not a directory" and leaves the state untouched;
`cd` with no argument succeeds and resets the current directory to the
workspace root. -/
theorem c3_cd_failure_no_mutation (fs : FS) (st : TermState) (target : String)
    (rest : List String) :
    (osExists fs (safePath st.current_directory target) = false →
      tCd fs st (target :: rest) =
        (⟨"", "cd: " ++ target ++ ": No such file or directory", false⟩, st)) ∧
    (osExists fs (safePath st.current_directory target) = true →
      osIsdir fs (safePath st.current_directory target) = false →
      tCd fs st (target :: rest) =
        (⟨"", "cd: " ++ target ++ ": Not a directory", false⟩, st)) ∧
    tCd fs st [] = (⟨"", "", true⟩, { st with current_directory := baseDir }) := by
  refine ⟨?_, ?_, rfl⟩
  · intro h
    simp [tCd, h]
  · intro h1 h2
    simp [tCd, h1, h2]

/-- Witness for C3: a missing target and a file target, concretely. -/
theorem c3_cd_witness :
    osExists fs0 (safePath initState.current_directory "nope") = false ∧
    tCd fs0 initState ["nope"] =
      (⟨"", "cd: nope: No such file or directory", false⟩, initState) ∧
    osExists fsFile (safePath initState.current_directory "f.txt") = true ∧
    osIsdir fsFile (safePath initState.current_directory "f.txt") = false ∧
    tCd fsFile initState ["f.txt"] =
      (⟨"", "cd: f.txt: Not a directory", false⟩, initState) :=
  ⟨rfl, (c3_cd_failure_no_mutation fs0 initState "nope" []).1 rfl,
   rfl, rfl, (c3_cd_failure_no_mutation fsFile initState "f.txt" []).2.1 rfl rfl⟩

/-- A path that does not exist is not a directory. -/
theorem osIsdir_false_of_not_exists {fs : FS} {p : String}
    (h : osExists fs p = false) : osIsdir fs p = false := by
  unfold osExists at h
  unfold osIsdir
  rw [List.any_eq_false] at h ⊢
  intro e he
  have hne := h e he
  simp only [decide_eq_true_eq] at hne
  simp only [Bool.and_eq_true, decide_eq_true_eq]
  rintro ⟨h1, _⟩
  exact hne h1

/-- C7: for a missing (non-flag) target, `rm target` fails with a
"No such file or directory" error, while `rm -f target` and
`rm -rf target` succeed, the missing target contributing neither an
error nor a change to the aggregation (the per-target loop collects
nothing for it). -/
theorem c7_rm_force_skip (fs : FS) (cwd f : String)
    (hne : osExists fs (safePath cwd f) = false)
    (hflag : pyStartswith f "-" = false) :
    (tRm fs cwd [f]).1 =
      ⟨"", "rm: " ++ f ++ ": No such file or directory", false⟩ ∧
    (tRm fs cwd ["-f", f]).1 = ⟨"", "", true⟩ ∧
    (tRm fs cwd ["-rf", f]).1 = ⟨"", "", true⟩ ∧
    rmLoop cwd false true fs [f] = ([], fs) := by
  have hd := osIsdir_false_of_not_exists hne
  have hi : ∀ x : String, String.intercalate "\n" [x] = x := by
    intro x
    rfl
  have e1 : pyStartswith "-f" "-" = true := rfl
  have e2 : pyStartswith "-rf" "-" = true := rfl
  have hne' : ∀ a : String, pyStartswith a "-" = true → (a == f) = false := by
    intro a ha
    cases hb : a == f with
    | false => rfl
    | true =>
      have h2 : pyStartswith a "-" = false := by rw [eq_of_beq hb]; exact hflag
      rw [ha] at h2
      exact absurd h2 (by simp)
  refine ⟨?_, ?_, ?_, ?_⟩
  · simp [tRm, rmLoop, osRemove, List.contains, List.elem, hne, hd, hflag, e1, e2, hi,
      hne' "-r" rfl, hne' "-rf" rfl, hne' "-f" rfl]
  · simp [tRm, rmLoop, osRemove, List.contains, List.elem, hne, hd, hflag, e1, e2, hi,
      hne' "-r" rfl, hne' "-rf" rfl, hne' "-f" rfl]
  · simp [tRm, rmLoop, osRemove, List.contains, List.elem, hne, hd, hflag, e1, e2, hi,
      hne' "-r" rfl, hne' "-rf" rfl, hne' "-f" rfl]
  · simp [rmLoop, osRemove, hne, hd]

/-- Witness for C7 at a concrete missing target. -/
theorem c7_rm_force_skip_witness :
    osExists fs0 (safePath baseDir "nofile.txt") = false ∧
    pyStartswith "nofile.txt" "-" = false ∧
    (tRm fs0 baseDir ["nofile.txt"]).1 =
      ⟨"", "rm: nofile.txt: No such file or directory", false⟩ ∧
    (tRm fs0 baseDir ["-f", "nofile.txt"]).1 = ⟨"", "", true⟩ ∧
    (tRm fs0 baseDir ["-rf", "nofile.txt"]).1 = ⟨"", "", true⟩ :=
  ⟨rfl, rfl, (c7_rm_force_skip fs0 baseDir "nofile.txt" rfl rfl).1,
   (c7_rm_force_skip fs0 baseDir "nofile.txt" rfl rfl).2.1,
   (c7_rm_force_skip fs0 baseDir "nofile.txt" rfl rfl).2.2.1⟩

/-- C2 counterexample: `mkdir a b` on a filesystem where `a` exists and
`b` does not produces exactly one per-target error out of two targets
(`K = 1 < N = 2`, and `b` is in fact created), yet the result's
`success` is `false` — `_mkdir` reports failure whenever *any* target
failed, not `success = (K < N)` as the claim states for
create-directory. -/
theorem c2_counterexample :
    (tMkdir env0 fsC2 baseDir ["a", "b"]).1.error = "mkdir: a: File exists" ∧
    (mkdirLoop env0 baseDir false fsC2 ["a", "b"]).1.length = 1 ∧
    1 < 2 ∧
    osIsdir (tMkdir env0 fsC2 baseDir ["a", "b"]).2 "/tmp/terminal_workspace/b" = true ∧
    (tMkdir env0 fsC2 baseDir ["a", "b"]).1.success = false :=
  ⟨rfl, rfl, by omega, rfl, rfl⟩

/-- C2 amended: with `K` the number of per-target errors the loop
collects and `N` the number of targets, every one of the five commands
newline-joins the per-target messages into `error`; `remove`, `copy`
and `move` report `success = (K < N)`, while `create-directory` and
`remove-empty-directory` report `success = (K = 0)` (failure as soon as
any target fails). -/
theorem c2_amended_policy (env : Env) (fs : FS) (cwd : String) (args : List String) :
    (args ≠ [] → args.filter (fun a => ! pyStartswith a "-") ≠ [] →
      (tMkdir env fs cwd args).1.error = String.intercalate "\n"
        (mkdirLoop env cwd (args.contains "-p") fs
          (args.filter (fun a => ! pyStartswith a "-"))).1 ∧
      (tMkdir env fs cwd args).1.success = decide
        ((mkdirLoop env cwd (args.contains "-p") fs
          (args.filter (fun a => ! pyStartswith a "-"))).1.length = 0)) ∧
    (args ≠ [] →
      (tRmdir fs cwd args).1.error =
        String.intercalate "\n" (rmdirLoop cwd fs args).1 ∧
      (tRmdir fs cwd args).1.success =
        decide ((rmdirLoop cwd fs args).1.length = 0)) ∧
    (args ≠ [] → args.filter (fun a => ! pyStartswith a "-") ≠ [] →
      (tRm fs cwd args).1.error = String.intercalate "\n"
        (rmLoop cwd (args.contains "-r" || args.contains "-rf")
          (args.contains "-f" || args.contains "-rf") fs
          (args.filter (fun a => ! pyStartswith a "-"))).1 ∧
      (tRm fs cwd args).1.success = decide
        ((rmLoop cwd (args.contains "-r" || args.contains "-rf")
          (args.contains "-f" || args.contains "-rf") fs
          (args.filter (fun a => ! pyStartswith a "-"))).1.length <
          (args.filter (fun a => ! pyStartswith a "-")).length)) ∧
    (2 ≤ args.length → args.dropLast.filter (fun a => ! pyStartswith a "-") ≠ [] →
      (tCp fs cwd args).1.error = String.intercalate "\n"
        (cpLoop cwd (args.contains "-r") (safePath cwd (args.getLastD "")) fs
          (args.dropLast.filter (fun a => ! pyStartswith a "-"))).1 ∧
      (tCp fs cwd args).1.success = decide
        ((cpLoop cwd (args.contains "-r") (safePath cwd (args.getLastD "")) fs
          (args.dropLast.filter (fun a => ! pyStartswith a "-"))).1.length <
          (args.dropLast.filter (fun a => ! pyStartswith a "-")).length)) ∧
    (2 ≤ args.length →
      (tMv fs cwd args).1.error = String.intercalate "\n"
        (mvLoop cwd (safePath cwd (args.getLastD "")) fs args.dropLast).1 ∧
      (tMv fs cwd args).1.success = decide
        ((mvLoop cwd (safePath cwd (args.getLastD "")) fs args.dropLast).1.length <
          args.dropLast.length)) := by
  refine ⟨?_, ?_, ?_, ?_, ?_⟩
  · intro h1 h2
    simp only [tMkdir, if_neg h1, if_neg h2]
    by_cases hz : (mkdirLoop env cwd (args.contains "-p") fs
        (args.filter (fun a => ! pyStartswith a "-"))).1 = []
    · rw [if_pos hz, hz]
      exact ⟨rfl, rfl⟩
    · rw [if_neg hz]
      refine ⟨rfl, ?_⟩
      have hlen : (mkdirLoop env cwd (args.contains "-p") fs
          (args.filter (fun a => ! pyStartswith a "-"))).1.length ≠ 0 := by
        simpa [List.length_eq_zero] using hz
      simp [hlen]
      simpa using hz
  · intro h1
    simp only [tRmdir, if_neg h1]
    by_cases hz : (rmdirLoop cwd fs args).1 = []
    · rw [if_pos hz, hz]
      exact ⟨rfl, rfl⟩
    · rw [if_neg hz]
      refine ⟨rfl, ?_⟩
      have hlen : (rmdirLoop cwd fs args).1.length ≠ 0 := by
        simpa [List.length_eq_zero] using hz
      simp [hlen]
  · intro h1 h2
    simp only [tRm, if_neg h1, if_neg h2]
    by_cases hz : (rmLoop cwd (args.contains "-r" || args.contains "-rf")
        (args.contains "-f" || args.contains "-rf") fs
        (args.filter (fun a => ! pyStartswith a "-"))).1 = []
    · rw [if_pos hz, hz]
      refine ⟨rfl, ?_⟩
      have := List.length_pos.mpr h2
      simp [this]
    · rw [if_neg hz]
      exact ⟨rfl, rfl⟩
  · intro h1 h2
    have hg : ¬args.length < 2 := by omega
    simp only [tCp, if_neg hg, if_neg h2]
    by_cases hz : (cpLoop cwd (args.contains "-r") (safePath cwd (args.getLastD "")) fs
        (args.dropLast.filter (fun a => ! pyStartswith a "-"))).1 = []
    · rw [if_pos hz, hz]
      refine ⟨rfl, ?_⟩
      have := List.length_pos.mpr h2
      simp [this]
    · rw [if_neg hz]
      exact ⟨rfl, rfl⟩
  · intro h1
    have hg : ¬args.length < 2 := by omega
    have hdl : 0 < args.dropLast.length := by
      rw [List.length_dropLast]
      omega
    simp only [tMv, if_neg hg]
    by_cases hz : (mvLoop cwd (safePath cwd (args.getLastD "")) fs args.dropLast).1 = []
    · rw [if_pos hz, hz]
      refine ⟨rfl, ?_⟩
      simp [hdl]
      omega
    · rw [if_neg hz]
      exact ⟨rfl, rfl⟩

/-- Witness for the amended C2: each of the five commands at a concrete
input where exactly one of the targets fails (or, for the single-target
ones, the only target fails). -/
theorem c2_amended_policy_witness :
    (tMkdir env0 fsC2 baseDir ["a", "b"]).1.success = false ∧
    (tRmdir fs0 baseDir ["missing"]).1.success = false ∧
    (tRm fs0 baseDir ["nofile.txt"]).1.success = false ∧
    (tCp fs0 baseDir ["ghost.txt", "dest.txt"]).1.success = false ∧
    (tMv fs0 baseDir ["ghost.txt", "dest.txt"]).1.success = false := by
  refine ⟨?_, ?_, ?_, ?_, ?_⟩
  · rw [((c2_amended_policy env0 fsC2 baseDir ["a", "b"]).1 (by decide) (by decide)).2]
    rfl
  · rw [((c2_amended_policy env0 fs0 baseDir ["missing"]).2.1 (by decide)).2]
    rfl
  · rw [((c2_amended_policy env0 fs0 baseDir ["nofile.txt"]).2.2.1 (by decide) (by decide)).2]
    rfl
  · rw [((c2_amended_policy env0 fs0 baseDir ["ghost.txt", "dest.txt"]).2.2.2.1
      (by decide) (by decide)).2]
    rfl
  · rw [((c2_amended_policy env0 fs0 baseDir ["ghost.txt", "dest.txt"]).2.2.2.2
      (by decide)).2]
    rfl

/-- C9: a line that is empty or all whitespace produces
`{output: "", error: "", success: true}`, appends nothing to the
history, and leaves the session state and the filesystem exactly as
they were (the result does not depend on the filesystem at all). -/
theorem c9_blank_line (env : Env) (fs : FS) (st : TermState) (cmd : String)
    (h : pyStrip cmd = "") :
    executeCommand env fs st cmd = (⟨"", "", true⟩, st, fs) := by
  have hps : pySplit (pyStrip (applyAliases cmd)) = [] := by
    rw [applyAliases_blank h, h]
    rfl
  unfold executeCommand
  simp only [hps]
  rw [histAppend_blank h]

/-- Witness for C9 on a whitespace-only line. -/
theorem c9_blank_line_witness :
    pyStrip "   " = "" ∧
    executeCommand env0 fs0 initState "   " = (⟨"", "", true⟩, initState, fs0) :=
  ⟨rfl, c9_blank_line env0 fs0 initState "   " rfl⟩

/-- C10: every non-blank raw line that differs from the most recent
history entry is appended verbatim — before alias expansion, lowering
or dispatch, and regardless of which command runs or whether it
succeeds — with the oldest entry popped when the buffer would exceed
1000. -/
theorem c10_history_records_raw (env : Env) (fs : FS) (st : TermState) (cmd : String)
    (h1 : pyStrip cmd ≠ "")
    (h2 : st.command_history = [] ∨ st.command_history.getLast? ≠ some cmd) :
    (executeCommand env fs st cmd).2.1.command_history =
      (if 1000 < (st.command_history ++ [cmd]).length
       then (st.command_history ++ [cmd]).tail
       else st.command_history ++ [cmd]) := by
  rw [executeCommand_hist]
  unfold histAppend
  rw [if_pos ⟨h1, h2⟩]

/-- Witness for C10: the alias line `ll` is recorded as `ll`, not as
its expansion `ls -la`. -/
theorem c10_history_records_raw_witness :
    pyStrip "ll" ≠ "" ∧
    (executeCommand env0 fs0 initState "ll").2.1.command_history = ["ll"] := by
  refine ⟨by decide, ?_⟩
  rw [c10_history_records_raw env0 fs0 initState "ll" (by decide) (Or.inl rfl)]
  rfl

/-- C4: (a) from a fresh session, any sequence of `execute` calls keeps
the history at or below 1000 entries; (b) a line equal to the most
recent entry is not appended again; (c) the general append/evict shape
on a non-blank line; (d) `history` renders the last up-to-50 retained
entries, numbered 1-based from the oldest of those 50, each index
right-aligned to 4 columns, followed by two spaces and the command
text. -/
theorem c4_history_invariants :
    (∀ (env : Env) (fs : FS) (cmds : List String),
      ((runAll env fs initState cmds).1).command_history.length ≤ 1000) ∧
    (∀ (env : Env) (fs : FS) (st : TermState) (cmd : String),
      st.command_history.getLast? = some cmd →
      (executeCommand env fs st cmd).2.1.command_history = st.command_history) ∧
    (∀ (env : Env) (fs : FS) (st : TermState) (cmd : String),
      pyStrip cmd ≠ "" →
      (executeCommand env fs st cmd).2.1.command_history =
        (if st.command_history = [] ∨ st.command_history.getLast? ≠ some cmd then
          (if 1000 < (st.command_history ++ [cmd]).length
           then (st.command_history ++ [cmd]).tail
           else st.command_history ++ [cmd])
         else st.command_history)) ∧
    (∀ hist : List String, hist ≠ [] →
      tHistory hist =
        ⟨String.intercalate "\n"
          ((hist.drop (hist.length - 50)).mapIdx
            (fun i c => pyRightAlign 4 (toString (i + 1)) ++ "  " ++ c)),
         "", true⟩) := by
  refine ⟨?_, ?_, ?_, ?_⟩
  · intro env fs cmds
    exact runAll_hist_le env cmds fs initState (by simp [initState])
  · intro env fs st cmd h
    rw [executeCommand_hist]
    unfold histAppend
    rw [if_neg]
    rintro ⟨-, hor⟩
    rcases hor with hemp | hne
    · rw [hemp] at h
      simp at h
    · exact hne h
  · intro env fs st cmd h1
    rw [executeCommand_hist]
    unfold histAppend
    by_cases hor : st.command_history = [] ∨ st.command_history.getLast? ≠ some cmd
    · rw [if_pos ⟨h1, hor⟩, if_pos hor]
    · rw [if_neg (fun hc => hor hc.2), if_neg hor]
  · intro hist hne
    unfold tHistory
    rw [if_neg hne]
    unfold pyLastN
    rw [numberLines_eq 1]
    have hf : (fun i c => pyRightAlign 4 (toString (1 + i)) ++ "  " ++ c) =
        (fun (i : Nat) (c : String) => pyRightAlign 4 (toString (i + 1)) ++ "  " ++ c) := by
      funext i c
      rw [Nat.add_comm]
    rw [hf]

/-- Witness for C4: a two-command run stays bounded; an exact duplicate
of the last entry is not re-appended; a non-blank new line is appended;
a concrete rendering shows the 4-column index and two spaces. -/
theorem c4_history_invariants_witness :
    ((runAll env0 fs0 initState ["mkdir demo", "ls"]).1).command_history.length ≤ 1000 ∧
    (executeCommand env0 fs0 ⟨baseDir, ["ls"]⟩ "ls").2.1.command_history = ["ls"] ∧
    (executeCommand env0 fs0 initState "pwd").2.1.command_history = ["pwd"] ∧
    tHistory ["ls", "pwd"] = ⟨"   1  ls\n   2  pwd", "", true⟩ := by
  refine ⟨c4_history_invariants.1 env0 fs0 ["mkdir demo", "ls"],
    c4_history_invariants.2.1 env0 fs0 ⟨baseDir, ["ls"]⟩ "ls" rfl, ?_, ?_⟩
  · rw [c4_history_invariants.2.2.1 env0 fs0 initState "pwd" (by decide)]
    rfl
  · rw [c4_history_invariants.2.2.2 ["ls", "pwd"] (by decide)]
    rfl

/-- C6: on the initial workspace, `nl: create a folder called demo`
matches the first intent pattern with capture `demo`, dispatches to the
same `_mkdir` call with single argument `demo` as `mkdir demo` does,
produces the same result, filesystem and current directory, and a
subsequent `ls` lists the new directory as `demo/`. -/
theorem c6_nl_mkdir_equiv :
    reCreateFolder1 "create a folder called demo" = some "demo" ∧
    tNLDispatch env0 fs0 initState "create a folder called demo" =
      ((tMkdir env0 fs0 baseDir ["demo"]).1, initState,
        (tMkdir env0 fs0 baseDir ["demo"]).2) ∧
    (executeCommand env0 fs0 initState "nl: create a folder called demo").1 =
      (executeCommand env0 fs0 initState "mkdir demo").1 ∧
    (executeCommand env0 fs0 initState "nl: create a folder called demo").2.2 =
      (executeCommand env0 fs0 initState "mkdir demo").2.2 ∧
    (executeCommand env0 fs0 initState "nl: create a folder called demo").2.1.current_directory =
      (executeCommand env0 fs0 initState "mkdir demo").2.1.current_directory ∧
    (executeCommand env0 (executeCommand env0 fs0 initState "mkdir demo").2.2
      ⟨baseDir, []⟩ "ls").1 = ⟨"demo/", "", true⟩ :=
  ⟨rfl, rfl, rfl, rfl, rfl, rfl⟩

/-- Path completion returns at most 10 entries. -/
theorem completeIn_length_le (fs : FS) (sd fp : String) :
    (completeIn fs sd fp).length ≤ 10 := by
  unfold completeIn
  split_ifs
  · rw [List.length_take]
    exact min_le_left _ _
  · simp
  · simp

/-- C8: completion never returns more than 10 entries; a line with
exactly one token returns exactly the command names (including the two
intent prefixes) that start with the lowered token, in table order; the
single token `m` yields a list containing `mkdir`. -/
theorem c8_completions_spec :
    (∀ (fs : FS) (st : TermState) (p : String),
      (getCompletions fs st p).length ≤ 10) ∧
    (∀ (fs : FS) (st : TermState) (p t : String),
      pySplit p = [t] →
      getCompletions fs st p =
        COMMANDS.filter (fun c => pyStartswith c (pyLower t))) ∧
    "mkdir" ∈ getCompletions fs0 initState "m" := by
  refine ⟨?_, ?_, by decide⟩
  · intro fs st p
    by_cases hp : p = ""
    · simp [getCompletions, hp]
    · cases hsp : pySplit p with
      | nil => simp [getCompletions, hp, hsp]
      | cons t rest =>
        cases rest with
        | nil =>
          simp only [getCompletions, if_neg hp, hsp]
          exact commands_filter_length_le (pyLower t)
            (pyLower_data_ne_nil
              (mem_pySplit_ne_empty p t (by rw [hsp]; exact List.mem_singleton_self t)))
        | cons t2 ts =>
          simp only [getCompletions, if_neg hp, hsp]
          unfold completePath
          by_cases hc : pyContains ((t :: t2 :: ts).getLastD "") "/" = true
          · rw [if_pos hc]
            exact completeIn_length_le _ _ _
          · rw [if_neg hc]
            exact completeIn_length_le _ _ _
  · intro fs st p t h
    have hp : p ≠ "" := by
      intro he
      rw [he] at h
      simp [pySplit, pySplitAux] at h
    simp only [getCompletions, if_neg hp, h]

/-- Witness for C8 at the partial line `m`. -/
theorem c8_completions_spec_witness :
    pySplit "m" = ["m"] ∧
    getCompletions fs0 initState "m" = ["mkdir", "mv"] ∧
    (getCompletions fs0 initState "cat fo").length ≤ 10 := by
  refine ⟨rfl, ?_, c8_completions_spec.1 fs0 initState "cat fo"⟩
  rw [c8_completions_spec.2.1 fs0 initState "m" "m" rfl]
  rfl

end Term2
